import Mathlib

/-!
Verification of the emukit tutorial notebook
"Emukit-tutorial-bayesian-optimization-external-objective-evaluation.ipynb".

The notebook drives the Bayesian-optimization suggest/evaluate loop of the
emukit library manually (cell-11) and compares the outcome to the library's
high-level driver `run_optimization` (cell-17).  The parameter space of the
tutorial is one-dimensional, so a row of the sample matrix is a single
rational coordinate here.  The Gaussian-process model fitting and the
acquisition optimization are opaque to the notebook; they are abstracted as a
function `suggest : LoopState → List Row` giving the batch of points the
library proposes from its current loop state, and the objective function is
an abstract `f : Row → Row` applied row-wise, exactly as the notebook applies
`target_function` to a matrix.
-/

/-- A row of the sample matrix.  The tutorial's space is one-dimensional, so a
row is one rational coordinate. -/
abbrev Row := ℚ

/-- Modelled from the spec: the external library's loop state, "a sample
matrix of real-valued inputs and a corresponding matrix of scalar outputs,
both append-only logs of evaluated points" (`bo.loop_state.X` and
`bo.loop_state.Y` in cell-11). -/
structure LoopState where
  X : List Row
  Y : List Row
  deriving DecidableEq

/-- Modelled from the spec: the library's `UserFunctionResult`, "a lightweight
per-iteration result record pairing one input point with its observed output,
used solely to hand evaluation results back into the library's state". -/
structure UserFunctionResult where
  X : Row
  Y : Row
  deriving DecidableEq

/-- Modelled from the spec: handing a list of result records back into the
library's state appends, for each record, one input row and one output row to
the two logs ("grow by one row per evaluated point"). -/
def appendResults (s : LoopState) (rs : List UserFunctionResult) : LoopState :=
  ⟨s.X ++ rs.map UserFunctionResult.X, s.Y ++ rs.map UserFunctionResult.Y⟩

/-- Modelled from the spec: the library's `get_next_points` call (the manual
"get next point(s)" interface).  The results of the previous iteration, when
present, are first handed back into the loop state; the library then proposes
the next batch of points from the updated state.  The first call of cell-11
passes `results = None`, and the recorded output of cell-14 (12 rows after
10 iterations from 3 initial points) confirms that a result is appended only
when it is passed to a subsequent call. -/
def get_next_points (suggest : LoopState → List Row) (s : LoopState)
    (results : Option (List UserFunctionResult)) : LoopState × List Row :=
  match results with
  | none => (s, suggest s)
  | some rs =>
      let s2 := appendResults s rs
      (s2, suggest s2)

/-- Everything one iteration of the manual loop of cell-11 produces: the
`results` argument passed to `get_next_points`, the suggested batch `X_new`,
the evaluated outputs `Y_new = target_function(X_new)`, and the result record
`UserFunctionResult(X_new[0], Y_new[0])` built at the end of the body. -/
structure IterationTrace where
  resultsIn : Option (List UserFunctionResult)
  X_new : List Row
  Y_new : List Row
  resultOut : UserFunctionResult
  deriving DecidableEq

/-- The manual optimization loop of cell-11:

    for _ in range(num_iterations):
        X_new = bo.get_next_points(results)
        Y_new = target_function(X_new)
        results = [UserFunctionResult(X_new[0], Y_new[0])]

returning the final loop state, the pending `results` value, and the trace of
the iterations. -/
def manualLoop (suggest : LoopState → List Row) (f : Row → Row) :
    ℕ → LoopState → Option (List UserFunctionResult) →
    LoopState × Option (List UserFunctionResult) × List IterationTrace
  | 0, s, results => (s, results, [])
  | n + 1, s, results =>
      let st := get_next_points suggest s results
      let xnew := st.2
      let ynew := xnew.map f
      let r : UserFunctionResult := ⟨xnew.headD 0, ynew.headD 0⟩
      let rest := manualLoop suggest f n st.1 (some [r])
      (rest.1, rest.2.1, ⟨results, xnew, ynew, r⟩ :: rest.2.2)

/-- The initial sample points of cell-9: `X = np.array([[0.1],[0.6],[0.9]])`. -/
def initX : List Row := [1/10, 6/10, 9/10]

/-- The iteration count of cell-11: `num_iterations = 10`. -/
def num_iterations : ℕ := 10

/-- The loop state holding the initial data `X`, `Y = target_function(X)` that
both drivers are constructed from (cell-9 and the reassignment of cell-17). -/
def initState (f : Row → Row) : LoopState :=
  ⟨initX, initX.map f⟩

/-- Cell-11 as run by the notebook: the manual loop for `num_iterations`
iterations from the initial three points, with `results = None` initially. -/
def runManual (suggest : LoopState → List Row) (f : Row → Row) :
    LoopState × Option (List UserFunctionResult) × List IterationTrace :=
  manualLoop suggest f num_iterations (initState f) none

/-- The library's loop state after `n` iterations of the manual loop of
cell-11 (so `manualState suggest f num_iterations` is what cell-11 reads back
as `bo.loop_state`). -/
def manualState (suggest : LoopState → List Row) (f : Row → Row) (n : ℕ) :
    LoopState :=
  (manualLoop suggest f n (initState f) none).1

/-- The result record the library builds from a suggested batch: the first row
of the batch paired with the first row of the evaluated outputs. -/
def batchResult (f : Row → Row) (b : List Row) : UserFunctionResult :=
  ⟨b.headD 0, (b.map f).headD 0⟩

/-- One internal iteration of the loop: suggest a batch from the current
state, evaluate the objective on it, and append the head result. -/
def feedStep (suggest : LoopState → List Row) (f : Row → Row) (s : LoopState) :
    LoopState :=
  appendResults s [batchResult f (suggest s)]

/-- Modelled from the spec: the library's high-level `run_optimization`
convenience method of cell-17, which "performs the same loop internally":
each iteration suggests a batch from the current state, evaluates the
objective on it, and hands the head result straight back into the state.  It
returns the final state together with the list of suggested batches. -/
def run_optimization (suggest : LoopState → List Row) (f : Row → Row) :
    ℕ → LoopState → LoopState × List (List Row)
  | 0, s => (s, [])
  | n + 1, s =>
      let xnew := suggest s
      let rest := run_optimization suggest f n (feedStep suggest f s)
      (rest.1, xnew :: rest.2)

/-!
Cell-level data flow of the notebook.  Each code cell is recorded with the
global names it reads and the global names it binds (imports bind the
imported name).  Python builtins (`range`, `len`, `zip`, `enumerate`, `dict`)
are not tracked.
-/

/-- A code cell of the notebook, as a record of the global names it reads and
the global names it writes. -/
structure Cell where
  reads : List String
  writes : List String
  deriving DecidableEq

/-- The fallback cell used for out-of-range indexing. -/
def defaultCell : Cell := ⟨[], []⟩

/-- The code cells of the notebook in execution order:
cell-3 (general imports and figure config), cell-7 (objective import),
cell-9 (initial points), cell-11 (manual loop), cell-13 (plot of the manual
run), cell-14 (inspection of `X`), cell-17 (high-level `run_optimization`
run), cell-19 (plot of the high-level run). -/
def notebookCells : List Cell :=
  [⟨["mcolors"],
    ["np", "plt", "mcolors", "colors", "LEGEND_SIZE", "TITLE_SIZE",
     "AXIS_SIZE"]⟩,
   ⟨["forrester_function"],
    ["forrester_function", "UserFunctionWrapper", "target_function", "space"]⟩,
   ⟨["np", "target_function", "X"],
    ["X", "Y"]⟩,
   ⟨["GPBayesianOptimization", "UserFunctionResult", "space", "X", "Y", "bo",
     "results", "target_function", "X_new", "Y_new", "num_iterations"],
    ["GPBayesianOptimization", "UserFunctionResult", "num_iterations", "bo",
     "results", "X_new", "Y_new", "X", "Y"]⟩,
   ⟨["np", "target_function", "plt", "x", "y", "X", "Y", "i", "xs", "ys"],
    ["x", "y", "i", "xs", "ys"]⟩,
   ⟨["X"],
    []⟩,
   ⟨["np", "target_function", "X", "GPBayesianOptimization", "space", "Y",
     "num_iterations"],
    ["X", "Y", "bo_loop"]⟩,
   ⟨["np", "target_function", "plt", "x", "y", "bo_loop", "i", "xs", "ys"],
    ["x", "y", "i", "xs", "ys"]⟩]

/-- Forward data flow: every name a cell reads was written by that cell or by
an earlier cell, i.e. no cell reads data produced only by a later cell. -/
def dataflowForward (cells : List Cell) : Bool :=
  (List.range cells.length).all fun i =>
    ((cells.getD i defaultCell).reads).all fun v =>
      (((cells.take (i + 1)).map Cell.writes).flatten).contains v

/-- The index of the first cell that writes a given name. -/
def firstWriter (cells : List Cell) (v : String) : Option ℕ :=
  cells.findIdx? fun c => c.writes.contains v

/-!
Statement-level shape of the notebook code, for the error-handling claim:
the statements of every code cell, with constructors for exception handlers
and raise statements so their absence is checkable.
-/

/-- A Python statement shape: import, cell magic, assignment, bare expression
statement, for loop with a body, try/except with a body and handler suite, or
a raise statement. -/
inductive PyStmt where
  | importStmt : PyStmt
  | magic : PyStmt
  | assign : PyStmt
  | exprStmt : PyStmt
  | forLoop : List PyStmt → PyStmt
  | tryExcept : List PyStmt → List PyStmt → PyStmt
  | raiseStmt : PyStmt

mutual

/-- Number of try/except handlers in a statement, including nested ones. -/
def PyStmt.handlerCount : PyStmt → ℕ
  | .forLoop body => handlerCountList body
  | .tryExcept body handlers => 1 + handlerCountList body + handlerCountList handlers
  | _ => 0

/-- Number of try/except handlers in a statement list. -/
def handlerCountList : List PyStmt → ℕ
  | [] => 0
  | s :: l => s.handlerCount + handlerCountList l

end

mutual

/-- Number of raise statements in a statement, including nested ones. -/
def PyStmt.raiseCount : PyStmt → ℕ
  | .forLoop body => raiseCountList body
  | .tryExcept body handlers => raiseCountList body + raiseCountList handlers
  | .raiseStmt => 1
  | _ => 0

/-- Number of raise statements in a statement list. -/
def raiseCountList : List PyStmt → ℕ
  | [] => 0
  | s :: l => s.raiseCount + raiseCountList l

end

/-- The statements of all code cells of the notebook, in order: cell-3 (two
magics, three imports, four config assignments), cell-7 (two imports, one
assignment), cell-9 (two assignments), cell-11 (two imports, three
assignments, the for loop with a three-assignment body, two assignments),
cell-13 (two assignments, a figure call, the plotting for loop), cell-14 (one
expression), cell-17 (three assignments and the `run_optimization` call),
cell-19 (two assignments, a figure call, the plotting for loop). -/
def notebookStmts : List PyStmt :=
  [.magic, .importStmt, .importStmt, .importStmt, .magic,
   .assign, .assign, .assign, .assign] ++
  [.importStmt, .importStmt, .assign] ++
  [.assign, .assign] ++
  [.importStmt, .importStmt, .assign, .assign, .assign,
   .forLoop [.assign, .assign, .assign], .assign, .assign] ++
  [.assign, .assign, .exprStmt, .forLoop [.exprStmt]] ++
  [.exprStmt] ++
  [.assign, .assign, .assign, .exprStmt] ++
  [.assign, .assign, .exprStmt, .forLoop [.exprStmt]]

/-- The manual `get_next_points` interface when the library call can fail:
results are handed back into the state exactly as in `get_next_points`, and a
failure of the library's suggestion step is returned as an error. -/
def get_next_pointsE {ε : Type} (suggestE : LoopState → Except ε (List Row))
    (s : LoopState) (results : Option (List UserFunctionResult)) :
    Except ε (LoopState × List Row) :=
  match results with
  | none => (suggestE s).map fun b => (s, b)
  | some rs =>
      let s2 := appendResults s rs
      (suggestE s2).map fun b => (s2, b)

/-- The manual loop of cell-11 over a fallible library: the notebook's loop
body contains no handler, so an error of any `get_next_points` call is
returned as is. -/
def manualLoopE {ε : Type} (suggestE : LoopState → Except ε (List Row))
    (f : Row → Row) :
    ℕ → LoopState → Option (List UserFunctionResult) →
    Except ε (LoopState × Option (List UserFunctionResult))
  | 0, s, results => Except.ok (s, results)
  | n + 1, s, results =>
      match get_next_pointsE suggestE s results with
      | Except.error e => Except.error e
      | Except.ok p =>
          let ynew := p.2.map f
          manualLoopE suggestE f n p.1 (some [⟨p.2.headD 0, ynew.headD 0⟩])

/-- The cross-cell mutable environment of the notebook: the global variables
`X` and `Y` reused across cells. -/
structure Env where
  X : List Row
  Y : List Row
  deriving DecidableEq

/-- Cell-9: `X = np.array([[0.1],[0.6],[0.9]]); Y = target_function(X)`. -/
def cell9run (f : Row → Row) (_e : Env) : Env :=
  ⟨initX, initX.map f⟩

/-- Cell-11: the manual loop run from the current values of `X` and `Y`,
after which `X = bo.loop_state.X` and `Y = bo.loop_state.Y`. -/
def cell11run (suggest : LoopState → List Row) (f : Row → Row) (e : Env) :
    Env :=
  ⟨(manualLoop suggest f num_iterations ⟨e.X, e.Y⟩ none).1.X,
   (manualLoop suggest f num_iterations ⟨e.X, e.Y⟩ none).1.Y⟩

/-- The first two statements of cell-17: the reassignment
`X = np.array([[0.1],[0.6],[0.9]]); Y = target_function(X)` that precedes the
construction of `bo_loop`. -/
def cell17assign (f : Row → Row) (_e : Env) : Env :=
  ⟨initX, initX.map f⟩

/-- The loop state `GPBayesianOptimization(variables_list=space.parameters,
X=X, Y=Y)` is constructed from: the current values of `X` and `Y`. -/
def boLoopInput (e : Env) : LoopState :=
  ⟨e.X, e.Y⟩

/-- The notebook's environment as the high-level driver of cell-17 sees it:
the sequential composition of cell-9, cell-11 and the reassignment of
cell-17. -/
def notebookEnvRun (suggest : LoopState → List Row) (f : Row → Row)
    (e0 : Env) : Env :=
  cell17assign f (cell11run suggest f (cell9run f e0))

/-- The marker size formula of cell-13 and cell-19:
`markersize=10 + 10 * (i+1)/len(X)` for the point with evaluation index `i`
out of `n` plotted points. -/
def markersize (n i : ℕ) : ℚ :=
  10 + 10 * (i + 1) / n

/-- The feedback discipline of the manual loop: a trace entry `b` receives, in
its `results` argument, exactly the result record built by the entry `a` of
the previous iteration. -/
def Feeds (a b : IterationTrace) : Prop :=
  b.resultsIn = some [a.resultOut]

section Lemmas

variable (suggest : LoopState → List Row) (f : Row → Row)

lemma appendResults_nil (s : LoopState) : appendResults s [] = s := by
  cases s; simp [appendResults]

lemma appendResults_append (s : LoopState) (l1 l2 : List UserFunctionResult) :
    appendResults s (l1 ++ l2) = appendResults (appendResults s l1) l2 := by
  cases s; simp [appendResults]

lemma appendResults_X_length (s : LoopState) (rs : List UserFunctionResult) :
    (appendResults s rs).X.length = s.X.length + rs.length := by
  simp [appendResults]

lemma appendResults_Y_length (s : LoopState) (rs : List UserFunctionResult) :
    (appendResults s rs).Y.length = s.Y.length + rs.length := by
  simp [appendResults]

lemma get_next_points_none (s : LoopState) :
    get_next_points suggest s none = (s, suggest s) := rfl

lemma get_next_points_some (s : LoopState) (rs : List UserFunctionResult) :
    get_next_points suggest s (some rs) =
      (appendResults s rs, suggest (appendResults s rs)) := rfl

lemma manualLoop_succ (n : ℕ) (s : LoopState)
    (r : Option (List UserFunctionResult)) :
    manualLoop suggest f (n + 1) s r =
      ((manualLoop suggest f n (get_next_points suggest s r).1
          (some [batchResult f (get_next_points suggest s r).2])).1,
       (manualLoop suggest f n (get_next_points suggest s r).1
          (some [batchResult f (get_next_points suggest s r).2])).2.1,
       ⟨r, (get_next_points suggest s r).2,
          ((get_next_points suggest s r).2).map f,
          batchResult f (get_next_points suggest s r).2⟩ ::
         (manualLoop suggest f n (get_next_points suggest s r).1
            (some [batchResult f (get_next_points suggest s r).2])).2.2) := rfl

lemma manualLoop_trace_length (n : ℕ) :
    ∀ (s : LoopState) (r : Option (List UserFunctionResult)),
      ((manualLoop suggest f n s r).2.2).length = n := by
  induction n with
  | zero => intro s r; rfl
  | succ n ih =>
      intro s r
      rw [manualLoop_succ]
      simp [ih]

lemma manualLoop_trace_headRes (n : ℕ) (s : LoopState)
    (r : Option (List UserFunctionResult)) :
    ((manualLoop suggest f (n + 1) s r).2.2).head?.map IterationTrace.resultsIn =
      some r := by
  rw [manualLoop_succ]
  rfl

lemma manualLoop_chain (n : ℕ) :
    ∀ (s : LoopState) (r : Option (List UserFunctionResult)),
      List.Chain' Feeds ((manualLoop suggest f n s r).2.2) := by
  induction n with
  | zero => intro s r; simp [manualLoop]
  | succ n ih =>
      intro s r
      rw [manualLoop_succ, List.chain'_cons']
      refine ⟨?_, ih _ _⟩
      intro b hb
      cases n with
      | zero => simp [manualLoop] at hb
      | succ m =>
          have h := manualLoop_trace_headRes suggest f m
            ((get_next_points suggest s r).1)
            (some [batchResult f (get_next_points suggest s r).2])
          rw [Option.mem_def] at hb
          rw [hb] at h
          simp only [Option.map_some'] at h
          exact Option.some_injective _ h

lemma manualLoop_trace_mem (n : ℕ) :
    ∀ (s : LoopState) (r : Option (List UserFunctionResult)) (t : IterationTrace),
      t ∈ (manualLoop suggest f n s r).2.2 →
        (∃ s2, t.X_new = (get_next_points suggest s2 t.resultsIn).2) ∧
        t.Y_new = t.X_new.map f ∧
        t.resultOut = batchResult f t.X_new := by
  induction n with
  | zero => intro s r t ht; simp [manualLoop] at ht
  | succ n ih =>
      intro s r t ht
      rw [manualLoop_succ] at ht
      rcases List.mem_cons.mp ht with h | h
      · subst h
        exact ⟨⟨s, rfl⟩, rfl, rfl⟩
      · exact ih _ _ t h

lemma manualLoop_resultsIn_singleton (n : ℕ) :
    ∀ (s : LoopState) (r : Option (List UserFunctionResult)),
      (r = none ∨ ∃ a, r = some [a]) →
      ∀ t ∈ (manualLoop suggest f n s r).2.2,
        t.resultsIn = none ∨ ∃ a, t.resultsIn = some [a] := by
  induction n with
  | zero => intro s r _ t ht; simp [manualLoop] at ht
  | succ n ih =>
      intro s r hr t ht
      rw [manualLoop_succ] at ht
      rcases List.mem_cons.mp ht with h | h
      · subst h; exact hr
      · exact ih _ _ (Or.inr ⟨_, rfl⟩) t h

lemma manualLoop_some_state (n : ℕ) :
    ∀ (s : LoopState) (r : UserFunctionResult),
      (manualLoop suggest f (n + 1) s (some [r])).1 =
        appendResults s
          (r :: ((manualLoop suggest f (n + 1) s (some [r])).2.2).dropLast.map
            IterationTrace.resultOut) := by
  induction n with
  | zero =>
      intro s r
      rw [manualLoop_succ, get_next_points_some]
      simp [manualLoop]
  | succ m ih =>
      intro s r
      rw [manualLoop_succ, get_next_points_some]
      rw [ih (appendResults s [r]) (batchResult f (suggest (appendResults s [r])))]
      have hne : (manualLoop suggest f (m + 1) (appendResults s [r])
          (some [batchResult f (suggest (appendResults s [r]))])).2.2 ≠ [] := by
        intro h
        have := manualLoop_trace_length suggest f (m + 1) (appendResults s [r])
          (some [batchResult f (suggest (appendResults s [r]))])
        rw [h] at this
        simp at this
      rw [List.dropLast_cons_of_ne_nil hne]
      rw [List.map_cons]
      rw [show (r :: batchResult f (suggest (appendResults s [r])) ::
            ((manualLoop suggest f (m + 1) (appendResults s [r])
              (some [batchResult f (suggest (appendResults s [r]))])).2.2).dropLast.map
                IterationTrace.resultOut) =
          ([r] ++ (batchResult f (suggest (appendResults s [r])) ::
            ((manualLoop suggest f (m + 1) (appendResults s [r])
              (some [batchResult f (suggest (appendResults s [r]))])).2.2).dropLast.map
                IterationTrace.resultOut)) from rfl]
      rw [appendResults_append]

lemma manualLoop_none_state (n : ℕ) (s : LoopState) :
    (manualLoop suggest f (n + 1) s none).1 =
      appendResults s
        (((manualLoop suggest f (n + 1) s none).2.2).dropLast.map
          IterationTrace.resultOut) := by
  cases n with
  | zero =>
      rw [manualLoop_succ, get_next_points_none]
      simp [manualLoop, appendResults_nil]
  | succ m =>
      rw [manualLoop_succ, get_next_points_none]
      rw [manualLoop_some_state suggest f m s (batchResult f (suggest s))]
      have hne : (manualLoop suggest f (m + 1) s
          (some [batchResult f (suggest s)])).2.2 ≠ [] := by
        intro h
        have := manualLoop_trace_length suggest f (m + 1) s
          (some [batchResult f (suggest s)])
        rw [h] at this
        simp at this
      rw [List.dropLast_cons_of_ne_nil hne]
      rw [List.map_cons]

lemma manualLoop_some_state_iter (n : ℕ) :
    ∀ (s : LoopState) (r : UserFunctionResult),
      (manualLoop suggest f (n + 1) s (some [r])).1 =
        (feedStep suggest f)^[n] (appendResults s [r]) := by
  induction n with
  | zero => intro s r; rfl
  | succ m ih =>
      intro s r
      rw [manualLoop_succ, get_next_points_some]
      rw [ih (appendResults s [r]) (batchResult f (suggest (appendResults s [r])))]
      rfl

lemma manualLoop_none_state_iter (n : ℕ) (s : LoopState) :
    (manualLoop suggest f (n + 1) s none).1 = (feedStep suggest f)^[n] s := by
  cases n with
  | zero => rfl
  | succ m =>
      rw [manualLoop_succ, get_next_points_none]
      rw [manualLoop_some_state_iter suggest f m s (batchResult f (suggest s))]
      rfl

lemma feedStep_iter_X_length (n : ℕ) :
    ∀ s : LoopState, ((feedStep suggest f)^[n] s).X.length = s.X.length + n := by
  induction n with
  | zero => intro s; rfl
  | succ m ih =>
      intro s
      rw [Function.iterate_succ_apply]
      rw [ih (feedStep suggest f s)]
      simp [feedStep, appendResults_X_length]
      omega

lemma feedStep_iter_Y_length (n : ℕ) :
    ∀ s : LoopState, ((feedStep suggest f)^[n] s).Y.length = s.Y.length + n := by
  induction n with
  | zero => intro s; rfl
  | succ m ih =>
      intro s
      rw [Function.iterate_succ_apply]
      rw [ih (feedStep suggest f s)]
      simp [feedStep, appendResults_Y_length]
      omega

lemma run_optimization_succ (n : ℕ) (s : LoopState) :
    run_optimization suggest f (n + 1) s =
      ((run_optimization suggest f n (feedStep suggest f s)).1,
       suggest s :: (run_optimization suggest f n (feedStep suggest f s)).2) := rfl

lemma run_optimization_state (n : ℕ) :
    ∀ s : LoopState,
      (run_optimization suggest f n s).1 =
        appendResults s ((run_optimization suggest f n s).2.map (batchResult f)) := by
  induction n with
  | zero => intro s; exact (appendResults_nil s).symm
  | succ m ih =>
      intro s
      rw [run_optimization_succ]
      rw [ih (feedStep suggest f s)]
      rw [List.map_cons]
      rw [show (batchResult f (suggest s) ::
            (run_optimization suggest f m (feedStep suggest f s)).2.map
              (batchResult f)) =
          ([batchResult f (suggest s)] ++
            (run_optimization suggest f m (feedStep suggest f s)).2.map
              (batchResult f))
          from rfl]
      rw [appendResults_append]
      rfl

lemma manual_batches_eq_some (n : ℕ) :
    ∀ (s : LoopState) (r : UserFunctionResult),
      ((manualLoop suggest f n s (some [r])).2.2).map IterationTrace.X_new =
        (run_optimization suggest f n (appendResults s [r])).2 := by
  induction n with
  | zero => intro s r; rfl
  | succ m ih =>
      intro s r
      rw [manualLoop_succ, get_next_points_some]
      rw [List.map_cons]
      rw [ih (appendResults s [r]) (batchResult f (suggest (appendResults s [r])))]
      rfl

lemma manual_batches_eq (n : ℕ) (s : LoopState) :
    ((manualLoop suggest f n s none).2.2).map IterationTrace.X_new =
      (run_optimization suggest f n s).2 := by
  cases n with
  | zero => rfl
  | succ m =>
      rw [manualLoop_succ, get_next_points_none]
      rw [List.map_cons]
      rw [manual_batches_eq_some suggest f m s (batchResult f (suggest s))]
      rfl

lemma dropLast_append_self {α : Type} (l : List α) :
    ∃ t, l.dropLast ++ t = l := by
  cases l with
  | nil => exact ⟨[], rfl⟩
  | cons a l2 =>
      exact ⟨[(a :: l2).getLast (by simp)],
        List.dropLast_concat_getLast (by simp)⟩

end Lemmas


section Bridge

variable (suggest : LoopState → List Row) (f : Row → Row)

lemma runManual_trace_length :
    ((runManual suggest f).2.2).length = num_iterations :=
  manualLoop_trace_length suggest f num_iterations (initState f) none

lemma runManual_headRes :
    ((runManual suggest f).2.2).head?.map IterationTrace.resultsIn =
      some none :=
  manualLoop_trace_headRes suggest f 9 (initState f) none

lemma runManual_chain :
    List.Chain' Feeds ((runManual suggest f).2.2) :=
  manualLoop_chain suggest f num_iterations (initState f) none

lemma runManual_trace_mem (t : IterationTrace)
    (ht : t ∈ (runManual suggest f).2.2) :
    (∃ s2, t.X_new = (get_next_points suggest s2 t.resultsIn).2) ∧
    t.Y_new = t.X_new.map f ∧
    t.resultOut = batchResult f t.X_new :=
  manualLoop_trace_mem suggest f num_iterations (initState f) none t ht

lemma runManual_state :
    (runManual suggest f).1 =
      appendResults (initState f)
        (((runManual suggest f).2.2).dropLast.map IterationTrace.resultOut) :=
  manualLoop_none_state suggest f 9 (initState f)

lemma runManual_state_iter :
    (runManual suggest f).1 = (feedStep suggest f)^[9] (initState f) :=
  manualLoop_none_state_iter suggest f 9 (initState f)

lemma runManual_batches :
    ((runManual suggest f).2.2).map IterationTrace.X_new =
      (run_optimization suggest f num_iterations (initState f)).2 :=
  manual_batches_eq suggest f num_iterations (initState f)

lemma runManual_trace_resultOut :
    ((runManual suggest f).2.2).map IterationTrace.resultOut =
      ((run_optimization suggest f num_iterations (initState f)).2).map
        (batchResult f) := by
  rw [← runManual_batches, List.map_map]
  apply List.map_congr_left
  intro t ht
  exact (runManual_trace_mem suggest f t ht).2.2

lemma appendResults_dropLast_X (s : LoopState)
    (l : List UserFunctionResult) :
    ∃ u, (appendResults s l.dropLast).X ++ u = (appendResults s l).X := by
  obtain ⟨t, ht⟩ := dropLast_append_self l
  refine ⟨t.map UserFunctionResult.X, ?_⟩
  conv_rhs => rw [← ht]
  simp [appendResults, List.map_append, List.append_assoc]

lemma appendResults_dropLast_Y (s : LoopState)
    (l : List UserFunctionResult) :
    ∃ v, (appendResults s l.dropLast).Y ++ v = (appendResults s l).Y := by
  obtain ⟨t, ht⟩ := dropLast_append_self l
  refine ⟨t.map UserFunctionResult.Y, ?_⟩
  conv_rhs => rw [← ht]
  simp [appendResults, List.map_append, List.append_assoc]

end Bridge

/-- C3: the manual loop runs a fixed number of iterations
(`num_iterations = 10`); every iteration obtains its suggested batch from a
`get_next_points` call on its `results` argument and evaluates the objective
function on it, the first call receives `results = None`, and each
iteration's result record is the `results` argument of the following
`get_next_points` call. -/
theorem claim_C3 (suggest : LoopState → List Row) (f : Row → Row) :
    ((runManual suggest f).2.2).length = num_iterations ∧
    num_iterations = 10 ∧
    ((runManual suggest f).2.2).head?.map IterationTrace.resultsIn =
      some none ∧
    List.Chain' Feeds ((runManual suggest f).2.2) ∧
    ∀ t ∈ (runManual suggest f).2.2,
      (∃ s2, t.X_new = (get_next_points suggest s2 t.resultsIn).2) ∧
      t.Y_new = t.X_new.map f := by
  refine ⟨runManual_trace_length suggest f, rfl, runManual_headRes suggest f,
    runManual_chain suggest f, ?_⟩
  intro t ht
  have h := runManual_trace_mem suggest f t ht
  exact ⟨h.1, h.2.1⟩

/-- Witness for C3: with the constant suggestion `[0]` and the constant zero
objective, the first trace entry evaluates the objective on its suggested
batch. -/
theorem claim_C3_witness :
    (⟨none, [0], [0], ⟨0, 0⟩⟩ : IterationTrace).Y_new =
      (⟨none, [0], [0], ⟨0, 0⟩⟩ : IterationTrace).X_new.map
        (fun _ => 0) :=
  ((claim_C3 (fun _ => [0]) (fun _ => 0)).2.2.2.2
    ⟨none, [0], [0], ⟨0, 0⟩⟩ (by decide)).2

/-- C4: if the library suggests a nonempty batch in every state, then every
result record of the manual loop is `UserFunctionResult(X_new[0], Y_new[0])`
with `Y_new = target_function(X_new)`, so the stored output equals the
objective function applied to the stored input. -/
theorem claim_C4 (suggest : LoopState → List Row) (f : Row → Row)
    (hne : ∀ s, suggest s ≠ []) :
    ∀ t ∈ (runManual suggest f).2.2,
      t.resultOut = ⟨t.X_new.headD 0, t.Y_new.headD 0⟩ ∧
      t.Y_new = t.X_new.map f ∧
      t.resultOut.Y = f t.resultOut.X := by
  intro t ht
  obtain ⟨⟨s2, hx⟩, hy, hr⟩ := runManual_trace_mem suggest f t ht
  have hxs : ∃ s3, t.X_new = suggest s3 := by
    cases hrc : t.resultsIn with
    | none => rw [hrc] at hx; exact ⟨s2, hx⟩
    | some rs => rw [hrc] at hx; exact ⟨appendResults s2 rs, hx⟩
  obtain ⟨s3, hx3⟩ := hxs
  refine ⟨by rw [hr, hy]; rfl, hy, ?_⟩
  rw [hr]
  cases hsc : suggest s3 with
  | nil => exact absurd hsc (hne s3)
  | cons a l =>
      rw [hx3, hsc]
      simp [batchResult]

/-- Witness for C4: the first result record of the loop with the constant
suggestion `[0]` and the constant zero objective stores the pair `(0, 0)`. -/
theorem claim_C4_witness :
    (⟨none, [0], [0], ⟨0, 0⟩⟩ : IterationTrace).resultOut.Y =
      (fun _ : Row => (0 : Row))
        (⟨none, [0], [0], ⟨0, 0⟩⟩ : IterationTrace).resultOut.X :=
  (claim_C4 (fun _ => [0]) (fun _ => 0)
    (fun _ => List.cons_ne_nil 0 [])
    ⟨none, [0], [0], ⟨0, 0⟩⟩ (by decide)).2.2

/-- C1 counterexample: with the constant suggestion `[0]` and the identity
objective, the manual loop of cell-11 (10 iterations from 3 initial points)
leaves `bo.loop_state.X` with 12 rows, not 13, because the final iteration's
result is never passed to a further `get_next_points` call. -/
theorem claim_C1_counterexample :
    (runManual (fun _ => [0]) (fun x => x)).1.X.length = 12 ∧
    ¬(runManual (fun _ => [0]) (fun x => x)).1.X.length = 13 ∧
    ¬(runManual (fun _ => [0]) (fun x => x)).1.Y.length = 13 := by
  decide

/-- C1 amended: the loop state grows by exactly one input row and one output
row per result handed back, and a result is handed back only on the following
`get_next_points` call, so after 10 iterations starting from 3 initial points
`bo.loop_state.X` and `bo.loop_state.Y` each contain 3 + (10 - 1) = 12 rows;
no previously appended row is ever modified or removed (each iteration's
state extends the previous one). -/
theorem claim_C1_amended (suggest : LoopState → List Row) (f : Row → Row) :
    (runManual suggest f).1.X.length = 3 + (num_iterations - 1) ∧
    (runManual suggest f).1.Y.length = 3 + (num_iterations - 1) ∧
    3 + (num_iterations - 1) = 12 ∧
    (∀ k, ∃ u,
      (manualState suggest f k).X ++ u = (manualState suggest f (k + 1)).X) ∧
    (∀ k, ∃ v,
      (manualState suggest f k).Y ++ v = (manualState suggest f (k + 1)).Y) := by
  refine ⟨?_, ?_, rfl, ?_, ?_⟩
  · rw [runManual_state_iter, feedStep_iter_X_length]
    rfl
  · rw [runManual_state_iter, feedStep_iter_Y_length]
    rfl
  · intro k
    cases k with
    | zero => exact ⟨[], by simp [manualState, manualLoop, get_next_points]⟩
    | succ m =>
        have ha : manualState suggest f (m + 1) =
            (feedStep suggest f)^[m] (initState f) :=
          manualLoop_none_state_iter suggest f m (initState f)
        have hb : manualState suggest f (m + 1 + 1) =
            (feedStep suggest f)^[m + 1] (initState f) :=
          manualLoop_none_state_iter suggest f (m + 1) (initState f)
        refine ⟨[(batchResult f
          (suggest ((feedStep suggest f)^[m] (initState f)))).X], ?_⟩
        rw [ha, hb, Function.iterate_succ_apply']
        rfl
  · intro k
    cases k with
    | zero => exact ⟨[], by simp [manualState, manualLoop, get_next_points]⟩
    | succ m =>
        have ha : manualState suggest f (m + 1) =
            (feedStep suggest f)^[m] (initState f) :=
          manualLoop_none_state_iter suggest f m (initState f)
        have hb : manualState suggest f (m + 1 + 1) =
            (feedStep suggest f)^[m + 1] (initState f) :=
          manualLoop_none_state_iter suggest f (m + 1) (initState f)
        refine ⟨[(batchResult f
          (suggest ((feedStep suggest f)^[m] (initState f)))).Y], ?_⟩
        rw [ha, hb, Function.iterate_succ_apply']
        rfl

/-- C8: the first `get_next_points` call of the manual loop receives
`results = None` and each later call receives the previous iteration's
result, so the final iteration's evaluated point is never handed back: the
final loop state is the initial data extended by the results of all trace
entries except the last, and `bo.loop_state.X` and `bo.loop_state.Y` each
contain 3 + (num_iterations - 1) = 12 rows. -/
theorem claim_C8 (suggest : LoopState → List Row) (f : Row → Row) :
    ((runManual suggest f).2.2).head?.map IterationTrace.resultsIn =
      some none ∧
    List.Chain' Feeds ((runManual suggest f).2.2) ∧
    (runManual suggest f).1 =
      appendResults (initState f)
        (((runManual suggest f).2.2).dropLast.map IterationTrace.resultOut) ∧
    (runManual suggest f).1.X.length = 3 + (num_iterations - 1) ∧
    (runManual suggest f).1.Y.length = 3 + (num_iterations - 1) ∧
    3 + (num_iterations - 1) = 12 := by
  refine ⟨runManual_headRes suggest f, runManual_chain suggest f,
    runManual_state suggest f, ?_, ?_, rfl⟩
  · rw [runManual_state_iter, feedStep_iter_X_length]
    rfl
  · rw [runManual_state_iter, feedStep_iter_Y_length]
    rfl

/-- C2: with the same model-fitting procedure (the same suggestion function)
and the same initial points, the manual loop and the high-level
`run_optimization` driver perform the same loop: they evaluate the identical
sequence of suggested batches, and the manual driver's final sample matrices
are an initial segment of the high-level driver's. -/
theorem claim_C2 (suggest : LoopState → List Row) (f : Row → Row) :
    ((runManual suggest f).2.2).map IterationTrace.X_new =
      (run_optimization suggest f num_iterations (initState f)).2 ∧
    (∃ u, (runManual suggest f).1.X ++ u =
      (run_optimization suggest f num_iterations (initState f)).1.X) ∧
    ∃ v, (runManual suggest f).1.Y ++ v =
      (run_optimization suggest f num_iterations (initState f)).1.Y := by
  refine ⟨runManual_batches suggest f, ?_, ?_⟩
  · obtain ⟨u, hu⟩ := appendResults_dropLast_X (initState f)
      ((run_optimization suggest f num_iterations (initState f)).2.map
        (batchResult f))
    refine ⟨u, ?_⟩
    rw [runManual_state, run_optimization_state, List.map_dropLast,
      runManual_trace_resultOut]
    exact hu
  · obtain ⟨v, hv⟩ := appendResults_dropLast_Y (initState f)
      ((run_optimization suggest f num_iterations (initState f)).2.map
        (batchResult f))
    refine ⟨v, ?_⟩
    rw [runManual_state, run_optimization_state, List.map_dropLast,
      runManual_trace_resultOut]
    exact hv

/-- C9: on every iteration of the manual loop exactly one result record is
fed back, the singleton `[UserFunctionResult(X_new[0], Y_new[0])]`, whatever
the size of the suggested batch, and the loop state collects only the head
row of each fed-back batch. -/
theorem claim_C9 (suggest : LoopState → List Row) (f : Row → Row) :
    (∀ t ∈ (runManual suggest f).2.2,
      ∀ rs, t.resultsIn = some rs → rs.length = 1) ∧
    (∀ t ∈ (runManual suggest f).2.2,
      t.resultOut = ⟨t.X_new.headD 0, t.Y_new.headD 0⟩) ∧
    (runManual suggest f).1.X =
      initX ++
        ((runManual suggest f).2.2).dropLast.map
          (fun t => t.X_new.headD 0) := by
  refine ⟨?_, ?_, ?_⟩
  · intro t ht rs hrs
    rcases manualLoop_resultsIn_singleton suggest f num_iterations
        (initState f) none (Or.inl rfl) t ht with h | ⟨a, ha⟩
    · rw [h] at hrs
      exact Option.noConfusion hrs
    · rw [ha] at hrs
      have h2 := Option.some_injective _ hrs
      rw [← h2]
      rfl
  · intro t ht
    obtain ⟨_, hy, hr⟩ := runManual_trace_mem suggest f t ht
    rw [hr, hy]
    rfl
  · rw [runManual_state]
    have hmm : (((runManual suggest f).2.2).dropLast).map
        (UserFunctionResult.X ∘ IterationTrace.resultOut) =
        ((runManual suggest f).2.2).dropLast.map
          (fun t => t.X_new.headD 0) := by
      apply List.map_congr_left
      intro t ht2
      have hm := runManual_trace_mem suggest f t
        ((List.dropLast_sublist _).subset ht2)
      simp only [Function.comp_apply]
      rw [hm.2.2]
      rfl
    simp only [appendResults]
    rw [List.map_map, hmm]
    rfl

/-- Witness for C9: in the loop with the constant suggestion `[0]` and the
constant zero objective, the second trace entry receives the singleton result
list of the first iteration. -/
theorem claim_C9_witness :
    ([(⟨0, 0⟩ : UserFunctionResult)] : List UserFunctionResult).length = 1 :=
  (claim_C9 (fun _ => [0]) (fun _ => 0)).1
    ⟨some [⟨0, 0⟩], [0], [0], ⟨0, 0⟩⟩ (by decide) [⟨0, 0⟩] rfl

/-- C5: the notebook's steps run in the stated order — the objective and
parameter-space import (cell index 1) precedes the initial points (index 2),
which precede the manual loop (index 3) and its plot (index 4), and the
high-level run (index 6) precedes its plot (index 7) — and every name a cell
reads is written by that cell or an earlier one, so no step reads data
produced by a later step. -/
theorem claim_C5 :
    dataflowForward notebookCells = true ∧
    firstWriter notebookCells "target_function" = some 1 ∧
    firstWriter notebookCells "space" = some 1 ∧
    firstWriter notebookCells "X" = some 2 ∧
    firstWriter notebookCells "Y" = some 2 ∧
    firstWriter notebookCells "bo" = some 3 ∧
    firstWriter notebookCells "bo_loop" = some 6 ∧
    (notebookCells.getD 4 defaultCell).reads.contains "X" = true ∧
    (notebookCells.getD 4 defaultCell).reads.contains "Y" = true ∧
    (notebookCells.getD 7 defaultCell).reads.contains "bo_loop" = true := by
  decide

/-- C6: the notebook contains no try/except handler and no raise statement,
and the manual loop transforms no error: whenever the library's suggestion
call fails, the loop returns exactly that error. -/
theorem claim_C6 :
    handlerCountList notebookStmts = 0 ∧
    raiseCountList notebookStmts = 0 ∧
    ∀ (ε : Type) (e : ε) (f : Row → Row) (n : ℕ) (s : LoopState)
      (results : Option (List UserFunctionResult)),
      manualLoopE (fun _ => Except.error e) f (n + 1) s results =
        Except.error e := by
  refine ⟨by decide, by decide, ?_⟩
  intro ε e f n s results
  cases results with
  | none => rfl
  | some rs => rfl

/-- C7: the notebook is a sequential composition of pure cell functions on
the environment of the shared variables `X` and `Y`: the manual loop section
does mutate them (after cell-11 they hold the manual loop's final state), but
cell-17 reassigns both before the high-level run, so the loop state the
high-level driver starts from is exactly the initial data, whatever the
manual loop did and whatever the initial environment was. -/
theorem claim_C7 (suggest : LoopState → List Row) (f : Row → Row) (e0 : Env) :
    boLoopInput (notebookEnvRun suggest f e0) = initState f ∧
    notebookEnvRun suggest f e0 = cell17assign f e0 ∧
    (cell11run suggest f (cell9run f e0)).X = (runManual suggest f).1.X ∧
    (cell11run suggest f (cell9run f e0)).Y = (runManual suggest f).1.Y := by
  exact ⟨rfl, rfl, rfl, rfl⟩

/-- C10: for `n` plotted points, the marker size `10 + 10 * (i+1)/n` of
cell-13 and cell-19 is strictly increasing in the evaluation index `i`, and
for every index `i < n` it lies in the half-open interval (10, 20]. -/
theorem claim_C10 :
    (∀ n i j : ℕ, i < j → j < n → markersize n i < markersize n j) ∧
    (∀ n i : ℕ, i < n →
      10 < markersize n i ∧ markersize n i ≤ 20) := by
  constructor
  · intro n i j hij hjn
    have hn0 : 0 < n := lt_of_le_of_lt (Nat.zero_le j) hjn
    have hnq : (0 : ℚ) < (n : ℚ) := by exact_mod_cast hn0
    have h1 : ((i : ℚ) + 1) < ((j : ℚ) + 1) := by
      exact_mod_cast Nat.succ_lt_succ hij
    unfold markersize
    have key : 10 * ((i : ℚ) + 1) / n < 10 * ((j : ℚ) + 1) / n := by
      rw [div_lt_div_iff₀ hnq hnq]
      nlinarith
    linarith
  · intro n i hin
    have hn0 : 0 < n := lt_of_le_of_lt (Nat.zero_le i) hin
    have hnq : (0 : ℚ) < (n : ℚ) := by exact_mod_cast hn0
    have hle : ((i : ℚ) + 1) ≤ (n : ℚ) := by exact_mod_cast hin
    constructor
    · unfold markersize
      have hpos : 0 < 10 * ((i : ℚ) + 1) / n := by positivity
      linarith
    · unfold markersize
      have hub : 10 * ((i : ℚ) + 1) / n ≤ 10 := by
        rw [div_le_iff₀ hnq]
        nlinarith
      linarith

/-- Witness for C10 at `n = 3`: the second marker is strictly larger than the
first, and the first lies in (10, 20]. -/
theorem claim_C10_witness :
    markersize 3 0 < markersize 3 1 ∧
    10 < markersize 3 0 ∧ markersize 3 0 ≤ 20 :=
  ⟨claim_C10.1 3 0 1 (by decide) (by decide),
   (claim_C10.2 3 0 (by decide)).1,
   (claim_C10.2 3 0 (by decide)).2⟩
